import Mathlib

/-!
Verification of the Dudley layout model (src/dudley/layout.py and the
superblock search of src/dudley/hdf5meta.py) against its specification.

The Python source is embedded shallowly: each relevant method becomes a Lean
function over an explicit `Layout` state.  Python exceptions are modelled by
`Except PyErr`; a raised exception carries only its kind, since no claim
depends on the message text.  Mutating methods return the (possibly partially
mutated) state next to the `Except` result, because a Python method can mutate
the layout and then raise.  Python integers are `Int`; the bit operations of
the source are expressed arithmetically where they are exact (comments at the
definitions justify each translation).  Loops whose termination depends on the
well-formedness of the arena take a fuel argument; exhausted fuel is the
distinguished outcome `PyErr.nonterm`, marking a loop that did not finish
within the given budget (in Python it would still be running or never finish).
-/

namespace Dudley

/-- Kind of a raised Python exception.  `indexError` covers out-of-range list
indexing, `nameError` an unbound bare name, `attributeError` a missing
attribute, and `nonterm` is the fuel cut-off described in the file header. -/
inductive PyErr where
  | typeError
  | valueError
  | keyError
  | indexError
  | nameError
  | attributeError
  | nonterm
  deriving DecidableEq

/-! ## Primitive catalog (layout.py lines 22-84 and 127-138) -/

/-- Embedding of the `_Prim` payload (layout.py lines 22-84).  `_Prim.__init__`
derives the fields from the name: `order = name[0]`, `kind = name[1]`,
`size = int(name[2:])`, and `align = size` except kind `c`, where
`align /= 2` (the Python result is the float size/2; the sizes involved are
even, so natural division is exact). -/
structure Prim where
  name : String
  order : Char
  kind : Char
  size : Nat
  align : Nat
  deriving DecidableEq

/-- Build a `Prim` from order, kind and size; the name is the concatenation the
source starts from, so this is `_Prim.__init__` read backwards. -/
def mkPrim (order kind : Char) (size : Nat) : Prim :=
  { name := String.mk [order, kind] ++ toString size
    order := order
    kind := kind
    size := size
    align := if kind = 'c' then size / 2 else size }

/-- Embedding of `Layout.prim` (layout.py lines 127-137): a 51-entry table with
`none` at indices 0, 20, 35 and 50, in exactly the source order. -/
def primList : List (Option Prim) :=
  [none,
   some (mkPrim '|' 'u' 1), some (mkPrim '|' 'i' 1), some (mkPrim '|' 'b' 1),
   some (mkPrim '|' 'S' 1), some (mkPrim '|' 'U' 1),
   some (mkPrim '|' 'u' 2), some (mkPrim '|' 'i' 2), some (mkPrim '|' 'f' 2),
   some (mkPrim '|' 'c' 4), some (mkPrim '|' 'U' 2),
   some (mkPrim '|' 'u' 4), some (mkPrim '|' 'i' 4), some (mkPrim '|' 'f' 4),
   some (mkPrim '|' 'c' 8), some (mkPrim '|' 'U' 4),
   some (mkPrim '|' 'u' 8), some (mkPrim '|' 'i' 8), some (mkPrim '|' 'f' 8),
   some (mkPrim '|' 'c' 16), none,
   some (mkPrim '<' 'u' 2), some (mkPrim '<' 'i' 2), some (mkPrim '<' 'f' 2),
   some (mkPrim '<' 'c' 4), some (mkPrim '<' 'U' 2),
   some (mkPrim '<' 'u' 4), some (mkPrim '<' 'i' 4), some (mkPrim '<' 'f' 4),
   some (mkPrim '<' 'c' 8), some (mkPrim '<' 'U' 4),
   some (mkPrim '<' 'u' 8), some (mkPrim '<' 'i' 8), some (mkPrim '<' 'f' 8),
   some (mkPrim '<' 'c' 16), none,
   some (mkPrim '>' 'u' 2), some (mkPrim '>' 'i' 2), some (mkPrim '>' 'f' 2),
   some (mkPrim '>' 'c' 4), some (mkPrim '>' 'U' 2),
   some (mkPrim '>' 'u' 4), some (mkPrim '>' 'i' 4), some (mkPrim '>' 'f' 4),
   some (mkPrim '>' 'c' 8), some (mkPrim '>' 'U' 4),
   some (mkPrim '>' 'u' 8), some (mkPrim '>' 'i' 8), some (mkPrim '>' 'f' 8),
   some (mkPrim '>' 'c' 16), none, none]

/-- Lookup `Layout.prim[n]`, as used in the form `Layout.prim[-typeid]`. -/
def primAt (n : Nat) : Option Prim := (primList.get? n).join

/-- Embedding of `Layout.primid` (layout.py line 138): maps a primitive name to
the negated table index.  The table names are unique, so the first index found
is the only one. -/
def primid (s : String) : Option Int :=
  (primList.findIdx? fun o =>
    match o with
    | some p => decide (p.name = s)
    | none => false).map fun i => -(i : Int)

/-- True when primitive number `n` exists and is of integer kind (u or i);
used to state what the parameter datatype check accepts. -/
def isIntPrim (n : Nat) : Bool :=
  match primAt n with
  | some p => decide (p.kind = 'u') || decide (p.kind = 'i')
  | none => false

/-! ## Arena item payloads (layout.py classes _Dict, _List, _Data, _Param,
_Type; itype constants at line 19: D_PRIM 0, D_DATA 1, D_PARAM 2, D_DICT 3,
D_LIST 4, D_TYPE 5) -/

/-- Members slot of a `_Type` payload: a typedef stores the integer id of its
single anonymous member, a compound stores an insertion-ordered name map. -/
inductive Members where
  | anon (memberid : Nat)
  | compound (m : List (String × Nat))
  deriving DecidableEq

/-- Payload of `_Dict` (layout.py lines 682-691).  The three name maps are
insertion-ordered association lists; `params` and `types` start as None. -/
structure PDict where
  parent : Option Int
  name : Option String
  items : List (String × Nat)
  params : Option (List (String × Nat))
  types : Option (List (String × Nat))
  deriving DecidableEq

/-- Payload of `_List` (layout.py lines 800-807). -/
structure PList where
  parent : Int
  name : Option String
  items : List Int
  deriving DecidableEq

/-- Payload of `_Data` (layout.py lines 438-451).  `typeid` is an `Option`
because `LData.size` tests `item.typeid is None`; the `align` slot holds 0 for
unspecified, a positive alignment, or a negative `Address` value. -/
structure PData where
  parent : Int
  name : Option String
  typeid : Option Int
  shape : Option (List Int)
  align : Int
  filt : Option String
  deriving DecidableEq

/-- Payload of `_Param` (layout.py lines 912-924).  `typeid = none` marks a
fixed parameter whose value is `pid`. -/
structure PParam where
  parent : Int
  name : Option String
  pid : Int
  typeid : Option Int
  align : Option Int
  deriving DecidableEq

/-- Payload of `_Type` (layout.py lines 1042-1051).  A fresh compound starts
with `size = 0` and `align = -1`; a negative align marks an open compound. -/
structure PType where
  parent : Int
  name : Option String
  members : Members
  size : Option Int
  align : Int
  deriving DecidableEq

/-- One arena item: exactly one of the five payload kinds. -/
inductive Item where
  | dictI (d : PDict)
  | listI (l : PList)
  | dataI (d : PData)
  | paramI (p : PParam)
  | typeI (t : PType)
  deriving DecidableEq

/-- The `itype` class attribute of each payload (layout.py line 19). -/
def Item.itype : Item → Nat
  | .dataI _ => 1
  | .paramI _ => 2
  | .dictI _ => 3
  | .listI _ => 4
  | .typeI _ => 5

/-- Embedding of the `Layout` object (layout.py lines 86-126): the arena list
plus the side list of dynamic parameter ids.  The `_atts` and `_docs` sidecars
play no part in any claim and are omitted. -/
structure Layout where
  items : List Item
  params : Option (List Nat)
  deriving DecidableEq

/-- Python list indexing on the arena: a negative index counts from the end,
anything out of range raises IndexError. -/
def Layout.pyIdx (self : Layout) (i : Int) : Option Nat :=
  let n := self.items.length
  if 0 ≤ i ∧ i < (n : Int) then some i.toNat
  else if -(n : Int) ≤ i ∧ i < 0 then some (i + n).toNat
  else none

/-- Read `self[i]` with Python index semantics. -/
def Layout.pyGet (self : Layout) (i : Int) : Except PyErr Item :=
  match self.pyIdx i with
  | some j =>
    match self.items[j]? with
    | some it => .ok it
    | none => .error .indexError
  | none => .error .indexError

/-- Replace the item at (already normalized) index `j`. -/
def Layout.setIdx (self : Layout) (j : Nat) (it : Item) : Layout :=
  { self with items := self.items.set j it }

/-- Append an item to the arena (`self.append(item)` in the source). -/
def Layout.push (self : Layout) (it : Item) : Layout :=
  { self with items := self.items ++ [it] }

/-- Lookup in an insertion-ordered name map (Python `dict.get`). -/
def alGet (l : List (String × Nat)) (k : String) : Option Nat :=
  match l.find? fun p => decide (p.1 = k) with
  | some p => some p.2
  | none => none

/-- Assignment `m[k] = v` on an insertion-ordered name map: an existing key
keeps its position, a new key is appended. -/
def alSet (l : List (String × Nat)) (k : String) (v : Nat) : List (String × Nat) :=
  if (alGet l k).isSome then
    l.map fun p => if p.1 = k then (p.1, v) else p
  else l ++ [(k, v)]

/-- Python truthiness of a stored shape slot: None and the empty tuple are
falsy, a non-empty tuple is truthy. -/
def shapeTruthy : Option (List Int) → Bool
  | none => false
  | some l => !l.isEmpty

/-! ## Dimension codec (layout.py lines 143-182) -/

/-- Handle of a parameter as passed to `encode_dim`: an `LParam` is the pair
of its layout and its itemid (layout.py lines 252-259 and 810-812). -/
structure LParamH where
  layout : Layout
  itemid : Nat
  deriving DecidableEq

/-- Argument accepted by `encode_dim`: an integer, a bare `LParam` handle, or
a `ParamRef` (handle plus offset, layout.py lines 893-898). -/
inductive EncodeArg where
  | intDim (d : Int)
  | paramH (h : LParamH)
  | refH (h : LParamH) (offset : Int)
  deriving DecidableEq

/-- Embedding of `Layout.encode_dim` (layout.py lines 143-157).  For an
integer: values below -1 raise ValueError, others pass through.  For a
parameter reference the source computes `((-d.itemid) << 6) | (offset + 32)`
after checking `d.layout != self`.  The shift is multiplication by 64 (exact
for either sign); the low six bits of `(-itemid) * 64` are clear and
`offset + 32` lies in [1, 63] for the offsets `LParam.__add__` builds (and in
[0, 63] whenever it is below 64), so on those operands the bitwise or of the
two terms equals their sum, which is how it is written here. -/
def Layout.encode_dim (self : Layout) : EncodeArg → Except PyErr Int
  | .intDim d => if d < -1 then .error .valueError else .ok d
  | .paramH h =>
    if h.layout = self then .ok (-(h.itemid : Int) * 64 + (0 + 32))
    else .error .typeError
  | .refH h offset =>
    if h.layout = self then .ok (-(h.itemid : Int) * 64 + (offset + 32))
    else .error .typeError

/-- Result of decoding one dimension slot: a literal or a parameter
reference.  Only the literal form is ever produced by the source as written
(see `Layout.decode_dim`); the reference form is produced by the repaired
decoder below. -/
inductive DimVal where
  | lit (d : Int)
  | paramV (paramid : Int)
  | ref (paramid : Int) (offset : Int)
  deriving DecidableEq

/-- Embedding of `Layout.decode_dim` (layout.py lines 159-166).  Values at
least -1 are returned as literals.  For smaller values the source computes
`offset = (d & 63) - 32` and `paramid = -(d >> 6)`; masking with 63 is the
(always non-negative) remainder modulo 64 and the arithmetic right shift by 6
is floor division by 64, both of which Lean `%` and `/` give for the positive
divisor 64.  Line 165 then evaluates `LParam(layout, paramid)` where the bare
name `layout` is bound nowhere in the method or the module (sibling methods
bind a local `layout = self.layout`; this one does not), so every call that
reaches line 165 raises NameError before anything is returned. -/
def Layout.decode_dim (_self : Layout) (d : Int) : Except PyErr DimVal :=
  if -1 ≤ d then .ok (.lit d)
  else
    let _offset := d % 64 - 32
    let _paramid := -(d / 64)
    .error .nameError

/-- Repaired decoder: `Layout.decode_dim` with the unbound name of line 165
read as `self`, which is the only referent the surrounding code supports.
Kept separate so the claims can be settled against the source as written
while the intended arithmetic can still be analysed. -/
def Layout.decode_dim_repaired (_self : Layout) (d : Int) : DimVal :=
  if -1 ≤ d then .lit d
  else
    let offset := d % 64 - 32
    let paramid := -(d / 64)
    if offset = 0 then .paramV paramid else .ref paramid offset

/-- Embedding of `Layout.decode_shape` (layout.py lines 176-182): decode each
slot left to right, propagating the first exception, with a falsy stored
shape decoding to the empty tuple. -/
def Layout.decode_shape (self : Layout) (shape : Option (List Int)) :
    Except PyErr (List DimVal) :=
  if shapeTruthy shape then
    (shape.getD []).mapM self.decode_dim
  else .ok []

/-! ## Address (layout.py lines 1054-1064) -/

/-- Embedding of `Address.__new__`: an argument below -1 raises ValueError,
otherwise the stored int value is `-2 - address`. -/
def Address_new (address : Int) : Except PyErr Int :=
  if address < -1 then .error .valueError else .ok (-2 - address)

/-- Embedding of the `Address.address` property: recover `-2 - self`. -/
def Address_address (v : Int) : Int := -2 - v

/-! ## HDF5 superblock search (hdf5meta.py lines 43-57) -/

/-- Next probe offset: `addr = 2*addr if addr else 512` (hdf5meta.py line
53). -/
def nextProbe (addr : Nat) : Nat := if addr = 0 then 512 else 2 * addr

/-- Embedding of the signature loop of `HDF5.__init__` (hdf5meta.py lines
48-53): `while addr + 8 < size`, read 8 bytes at `addr`, stop at the first
match, else advance with `nextProbe`.  The file content is abstracted to the
predicate `sig addr` = the 8 bytes at `addr` equal the HDF5 signature. -/
def findSig (sig : Nat → Bool) (size : Nat) (addr : Nat) : Option Nat :=
  if addr + 8 < size then
    if sig addr then some addr else findSig sig size (nextProbe addr)
  else none
termination_by size - addr
decreasing_by
  simp only [nextProbe]
  split <;> omega

/-- Embedding of the whole search (hdf5meta.py lines 48-56): the loop starts
at offset 0 and the for-else branch raises ValueError when the loop leaves
without a break. -/
def superblockSearch (sig : Nat → Bool) (size : Nat) : Except PyErr Nat :=
  match findSig sig size 0 with
  | some a => .ok a
  | none => .error .valueError

/-- Closed form of the probed offsets: 0 then 512, 1024, 2048, doubling. -/
def probeAt (k : Nat) : Nat := if k = 0 then 0 else 512 * 2 ^ (k - 1)

/-! ## Handles and the arena operations (layout.py lines 140-251 and the
facade classes) -/

/-- Modelled from the spec: `Layout.l_item` (layout.py line 141) dispatches
through a table `_LItem` indexed by itype, but `_LItem` is defined nowhere
under src/.  The spec (sections 2 and 4.3) describes the intended value: one
thin handle object per item kind wrapping the pair (arena, id).  We model the
handle by the pair itself, so `l_item` validates the index and yields the
addressed item; the per-kind method dispatch happens where a property of the
handle is read. -/
def Layout.l_item (self : Layout) (i : Int) : Except PyErr Item :=
  self.pyGet i

/-- Embedding of the container walk of `LItem.get_typeid` (layout.py lines
285-291): follow parent links from item `i` until a dict payload is reached.
Every non-dict payload stores an integer parent id; the walk takes fuel since
an arbitrary arena state need not terminate it. -/
def Layout.containingDict (self : Layout) : Nat → Int → Except PyErr PDict
  | fuel, i =>
    match self.pyGet i with
    | .error e => .error e
    | .ok (.dictI d) => .ok d
    | .ok it =>
      match fuel with
      | 0 => .error .nonterm
      | fuel + 1 =>
        let parent : Int :=
          match it with
          | .listI l => l.parent
          | .dataI d => d.parent
          | .paramI p => p.parent
          | .typeI t => t.parent
          | .dictI _ => 0
        self.containingDict fuel parent

/-- Test for the prefix fix-up of `_Dict._get_typeid` (layout.py lines
710-711): `name[:1] not in "<>|"`.  For the empty string, `name[:1]` is the
empty string, which is a substring of every string, so no bar is added. -/
def needsBar (s : String) : Bool :=
  match s.data with
  | [] => false
  | c :: _ => !(decide (c = '<') || decide (c = '>') || decide (c = '|'))

/-- Modelled from the spec (partly): the datatype argument of
`_Dict._get_typeid` (layout.py line 692).  The isinstance test of line 693
names the handle class `LPrim`, which is defined nowhere under src/; the spec
(sections 3.1 and 4.3) describes primitive handles that denote a primitive by
its negative type number, so `handleR` carries the itemid that line 694
returns for an `LPrim` or `LType` handle.  `nameR` is a string, `noneR` is
None (line 696 returns 0), and `otherR` is any other object (line 698 raises
TypeError). -/
inductive DTypeRef where
  | handleR (itemid : Int)
  | nameR (s : String)
  | noneR
  | otherR
  deriving DecidableEq

/-- Embedding of the scope walk of `_Dict._get_typeid` for a string datatype
(layout.py lines 700-723): search the types map of the current dict, then of
each enclosing dict (skipping list containers); at the root fall back to the
primitive table.  An unprefixed name that is found prefixed calls
`layout.add_prim` (line 716), but the `Layout` class defines no `add_prim`
anywhere under src/, so that call raises AttributeError.  A name found in no
scope raises KeyError (line 718). -/
def Layout.typesWalk (self : Layout) : Nat → PDict → String → Except PyErr Int
  | fuel, dct, s =>
    let hit : Option Nat :=
      match dct.types with
      | some m => alGet m s
      | none => none
    match hit with
    | some tid => .ok (tid : Int)
    | none =>
      match dct.parent with
      | none =>
        let nm := if needsBar s then "|" ++ s else s
        match primid nm with
        | some tid => if nm ≠ s then .error .attributeError else .ok tid
        | none => .error .keyError
      | some parent =>
        match fuel with
        | 0 => .error .nonterm
        | fuel + 1 =>
          match self.containingDict fuel parent with
          | .error e => .error e
          | .ok dct1 => self.typesWalk fuel dct1 s

/-- Embedding of `_Dict._get_typeid` (layout.py lines 692-723), dispatching
on the argument form as the isinstance chain of lines 693-698 does. -/
def Layout.dictGetTypeid (self : Layout) (dct : PDict) (r : DTypeRef)
    (fuel : Nat) : Except PyErr Int :=
  match r with
  | .handleR i => .ok i
  | .nameR s => self.typesWalk fuel dct s
  | .noneR => .ok 0
  | .otherR => .error .typeError

/-- Datatype argument of `Layout.add_item` (line 190).  The source first
evaluates `issubclass(datatype, dict)` (line 191), which raises TypeError
unless the argument is a class, so instances (strings, handles, None) are
separated from the three class forms. -/
inductive AddArg where
  | dictClass
  | listClass
  | otherClass
  | noneA
  | nameA (s : String)
  | handleA (itemid : Int)
  deriving DecidableEq

/-- Embedding of `Layout.add_item` (layout.py lines 184-206).  Walkthrough of
the source, in order:
line 186 `pitem = self.l_item(parent)` validates the parent id;
line 188 `if ptype == D_DICT and parent.get(name)` calls `.get` on `parent`,
  which is the integer id, not the handle `pitem`, so for every dict parent
  this raises AttributeError (int has no attribute get) whatever the name;
line 191 `issubclass(datatype, type({}))` raises TypeError when `datatype` is
  not a class (a string, a handle, None, and any other instance);
line 193 adding a dict to a type parent raises TypeError;
line 194 builds the `_Dict` payload (the one creating path that completes);
line 197 adding a list to a type parent raises TypeError;
line 198 `return self.l_item(listid)` reads the unbound local `listid`,
  raising NameError, and makes line 199 unreachable;
line 203 for any other class, `pitem.get_typeid(datatype)` walks to the
  containing dict and then `_get_typeid` raises TypeError (line 698), so the
  `_Data` constructor is never entered (had it been, `parent.itemid` on the
  integer parent at line 446 would raise AttributeError). -/
def Layout.add_item (self : Layout) (parent : Int) (name : Option String)
    (datatype : AddArg) (_shape : Option (List Int)) (_align : Option Int)
    (_filt : Option String) (fuel : Nat) : Except PyErr Nat × Layout :=
  match self.l_item parent with
  | .error e => (.error e, self)
  | .ok pitem =>
    if pitem.itype = 3 then (.error .attributeError, self)
    else
      match datatype with
      | .nameA _ => (.error .typeError, self)
      | .handleA _ => (.error .typeError, self)
      | .noneA => (.error .typeError, self)
      | .dictClass =>
        if pitem.itype = 5 then (.error .typeError, self)
        else
          let item := Item.dictI
            { parent := some parent, name := name, items := [],
              params := none, types := none }
          (.ok self.items.length, self.push item)
      | .listClass =>
        if pitem.itype = 5 then (.error .typeError, self)
        else (.error .nameError, self)
      | .otherClass =>
        match self.containingDict fuel parent with
        | .error e => (.error e, self)
        | .ok _ => (.error .typeError, self)

/-- Embedding of `Layout.add_param` (layout.py lines 208-225) composed with
`_Param.__init__` (lines 916-924).  With `typeid = None` the value arrives in
the `align` slot: a non-integer raises TypeError, a value below -1 raises
ValueError, otherwise a fixed parameter is appended with `pid` the value and
`align` None.  With a typeid, the side list `params` is first extended with
the new itemid (line 222); the power-of-two test of `_Param.__init__` runs
after that, so a bad alignment leaves the extended side list behind.  The
test `align & (align-1)` runs only for positive align, where it equals the
same expression on naturals. -/
def Layout.add_param (self : Layout) (parent : Int) (name : Option String)
    (typeid : Option Int) (align : Option Int) : Except PyErr Nat × Layout :=
  let itemid := self.items.length
  match typeid with
  | none =>
    match align with
    | none => (.error .typeError, self)
    | some v =>
      if v < -1 then (.error .valueError, self)
      else
        let item := Item.paramI
          { parent := parent, name := name, pid := v, typeid := none,
            align := none }
        (.ok itemid, self.push item)
  | some t =>
    let pr : Nat × Layout :=
      match self.params with
      | none => (0, { self with params := some [itemid] })
      | some ps => (ps.length, { self with params := some (ps ++ [itemid]) })
    let pid := pr.1
    let self1 := pr.2
    match align with
    | some a =>
      if 0 < a ∧ (a.toNat &&& (a.toNat - 1)) ≠ 0 then (.error .valueError, self1)
      else
        let item := Item.paramI
          { parent := parent, name := name, pid := (pid : Int),
            typeid := some t, align := some a }
        (.ok itemid, self1.push item)
    | none =>
      let item := Item.paramI
        { parent := parent, name := name, pid := (pid : Int),
          typeid := some t, align := none }
      (.ok itemid, self1.push item)

/-- Embedding of `Layout.add_type` (layout.py lines 227-249).  A truthy align
must be a positive power of two (lines 231-235).  With `datatype` absent
(Ellipsis) a fresh open compound is appended and its id returned.  Otherwise
(a typedef) line 240 appends the `_Type` payload first, then line 241 calls
`add_item`, which raises for every datatype argument (see `add_item`), and
were it to return, line 242 `member = layout.l_item(-1)` reads the bare name
`layout`, which is unbound in this method (the method is on `Layout` itself
and would need `self`), raising NameError.  Either way the typedef branch
raises after having already appended the `_Type` item. -/
def Layout.add_type (self : Layout) (parent : Int) (name : Option String)
    (datatype : Option AddArg) (shape : Option (List Int))
    (align : Option Int) (fuel : Nat) : Except PyErr Nat × Layout :=
  let alignBad : Option PyErr :=
    match align with
    | some a =>
      if a ≠ 0 then
        if 0 < a ∧ (a.toNat &&& (a.toNat - 1)) ≠ 0 then some .valueError
        else if a < 0 then some .valueError
        else none
      else none
    | none => none
  match alignBad with
  | some e => (.error e, self)
  | none =>
    let itemid := self.items.length
    match datatype with
    | none =>
      let item := Item.typeI
        { parent := parent, name := name, members := .compound [],
          size := some 0, align := -1 }
      (.ok itemid, self.push item)
    | some dt =>
      let L1 := self.push (Item.typeI
        { parent := parent, name := name, members := .anon (itemid + 1),
          size := some 0, align := -1 })
      match L1.add_item (itemid : Int) none dt shape align none fuel with
      | (.error e, L2) => (.error e, L2)
      | (.ok _, L2) => (.error .nameError, L2)

/-- Embedding of `LDict.__setitem__` (layout.py lines 508-514): the name is
a string by typing, the value tuple is splatted into `add_item`. -/
def Layout.lDictSetitem (self : Layout) (dictid : Nat) (name : String)
    (datatype : AddArg) (shape : Option (List Int)) (align : Option Int)
    (filt : Option String) (fuel : Nat) : Except PyErr Nat × Layout :=
  self.add_item (dictid : Int) (some name) datatype shape align filt fuel

/-- Embedding of `DictTypes.__call__` (layout.py lines 668-679) together with
`DictTypes.__init__` (lines 624-628), which reads the types slot of the dict
payload (an AttributeError for any other payload).  A name already present in
the types map of this dict raises ValueError (previously declared); otherwise
the call delegates to `add_type`.  Note that the source never inserts the new
name into the types map afterwards. -/
def Layout.dictTypesCall (self : Layout) (dictid : Nat) (name : Option String)
    (datatype : Option AddArg) (shape : Option (List Int))
    (align : Option Int) (fuel : Nat) : Except PyErr Nat × Layout :=
  match self.pyGet (dictid : Int) with
  | .error e => (.error e, self)
  | .ok (.dictI dct) =>
    let types := dct.types.getD []
    let dup : Bool :=
      match name with
      | some nm => (alGet types nm).isSome
      | none => false
    if dup then (.error .valueError, self)
    else self.add_type (dictid : Int) name datatype shape align fuel
  | .ok _ => (.error .attributeError, self)

/-- Embedding of the typedef-chain loop of `DictParams.__call__` (layout.py
lines 598-612): while the type id is positive, the addressed item must be a
type whose members slot is an integer (a typedef; a compound or any other
item raises TypeError, line 603), the anonymous member is read, its typeid
becomes the next id (line 606; only data and parameter payloads have that
slot), and a truthy shape or filt on the member raises TypeError (line 607;
a parameter payload has no shape slot, raising AttributeError there).  When a
member typeid is None, the loop condition `tid > 0` compares None with int,
raising TypeError.  The loop leaves with the final non-positive id. -/
def Layout.paramChain (self : Layout) : Nat → Int → Except PyErr Int
  | fuel, tid =>
    if 0 < tid then
      match fuel with
      | 0 => .error .nonterm
      | fuel + 1 =>
        match self.pyGet tid with
        | .error e => .error e
        | .ok it =>
          let members : Option Members :=
            match it with
            | .typeI t => some t.members
            | _ => none
          match members with
          | none => .error .typeError
          | some (.compound _) => .error .typeError
          | some (.anon m) =>
            match self.pyGet (m : Int) with
            | .error e => .error e
            | .ok (.dataI d) =>
              if shapeTruthy d.shape || d.filt.isSome then .error .typeError
              else
                match d.typeid with
                | none => .error .typeError
                | some t2 => self.paramChain fuel t2
            | .ok (.paramI _) => .error .attributeError
            | .ok _ => .error .attributeError
    else .ok tid

/-- Embedding of lines 614-618 of `DictParams.__call__`: re-read the dict
payload, create its params map when absent, and bind `name` to the new
paramid (an existing name is simply rebound, line 617). -/
def Layout.finishParams (self : Layout) (dictid : Nat) (name : String)
    (paramid : Nat) : Except PyErr Nat × Layout :=
  match self.pyIdx (dictid : Int) with
  | none => (.error .indexError, self)
  | some j =>
    match self.items[j]? with
    | some (.dictI dct) =>
      let m := dct.params.getD []
      (.ok paramid,
       self.setIdx j (.dictI { dct with params := some (alSet m name paramid) }))
    | some _ => (.error .attributeError, self)
    | none => (.error .indexError, self)

/-- Argument of `DictParams.__call__`: an integer value or a datatype. -/
inductive ParamArg where
  | intVal (v : Int)
  | dtype (r : DTypeRef)
  deriving DecidableEq

/-- Embedding of `DictParams.__call__` (layout.py lines 586-618).  Line 593
indexes the arena at the dict id (IndexError when out of range).  An integral
second argument creates a fixed parameter through `add_param` with the value
in the align slot.  Any other argument is resolved by `_Dict._get_typeid`
(which needs the dict payload: any other payload kind has no such method and
no params slot, raising AttributeError), the typedef chain is walked, the
final id must name one of the 50 primitives with `(-1 - tid) % 5 <= 1`
(columns u and i of the table, line 610), and a dynamic parameter is created
with the original resolved typeid.  Finally the params map of the dict is
updated (lines 614-617). -/
def Layout.dictParamsCall (self : Layout) (dictid : Nat) (name : String)
    (arg : ParamArg) (align : Option Int) (fuel : Nat) :
    Except PyErr Nat × Layout :=
  match self.pyGet (dictid : Int) with
  | .error e => (.error e, self)
  | .ok it =>
    match arg with
    | .intVal v =>
      match self.add_param (dictid : Int) (some name) none (some v) with
      | (.error e, L1) => (.error e, L1)
      | (.ok paramid, L1) => L1.finishParams dictid name paramid
    | .dtype r =>
      match it with
      | .dictI dct =>
        match self.dictGetTypeid dct r fuel with
        | .error e => (.error e, self)
        | .ok typeid =>
          match self.paramChain fuel typeid with
          | .error e => (.error e, self)
          | .ok tid =>
            if -1 < tid ∨ tid < -50 ∨ 1 < (-1 - tid) % 5 then
              (.error .typeError, self)
            else
              match self.add_param (dictid : Int) (some name) (some typeid) align with
              | (.error e, L1) => (.error e, L1)
              | (.ok paramid, L1) => L1.finishParams dictid name paramid
      | _ => (.error .attributeError, self)

/-! ## Handle size and alignment properties -/

/-- Dispatch of the `align` attribute on an `l_item` handle: `LData.align`
(layout.py lines 383-385) returns the raw slot; `LParam.align` (lines
825-831) returns None for a fixed parameter and the raw slot otherwise; the
dict, list and type handles have no align property (AttributeError). -/
def Layout.handleAlign (self : Layout) (i : Int) : Except PyErr (Option Int) :=
  match self.pyGet i with
  | .error e => .error e
  | .ok (.dataI d) => .ok (some d.align)
  | .ok (.paramI p) =>
    match p.typeid with
    | none => .ok none
    | some _ => .ok p.align
  | .ok _ => .error .attributeError

/-- Dispatch of the `size` property on an `l_item` handle, covering
`LData.size` (layout.py lines 410-431) and `LParam.size` (lines 868-880);
the dict, list and type handles define no size property, so a positive
typeid that addresses one of those raises AttributeError (in particular a
datum of compound type: `LType` has no `size` property in src/).  Both
properties read `Layout.prim[-typeid].size` for a negative typeid, which is
AttributeError at the reserved slots 20, 35, 50 where the table holds None.
In `LData.size` the primitive branch (line 421) returns before the shape
loop, so the shape is ignored for a primitive-typed datum; the shape loop
(lines 424-430) runs only for positive typeids, decodes the shape (raising
NameError on any encoded parameter reference, see `decode_dim`) and
multiplies in only the non-negative literal dimensions, silently skipping
the unlimited sentinel -1.  The reference branches of the fold mirror lines
425-428 but are unreachable: `decode_dim` as written never returns a
reference. -/
def Layout.sizeOfItem (self : Layout) : Nat → Item → Except PyErr (Option Int)
  | fuel, .dataI d =>
    match d.typeid with
    | none => .ok (some 0)
    | some t =>
      if t = 0 then .ok (some 0)
      else if t < 0 then
        match primAt (-t).toNat with
        | some pr => .ok (some (pr.size : Int))
        | none => .error .attributeError
      else
        match fuel with
        | 0 => .error .nonterm
        | fuel + 1 =>
          match self.pyGet t with
          | .error e => .error e
          | .ok it =>
            match self.sizeOfItem fuel it with
            | .error e => .error e
            | .ok none => .ok none
            | .ok (some s) =>
              match self.decode_shape d.shape with
              | .error e => .error e
              | .ok dims =>
                .ok (some (dims.foldl (fun acc dv =>
                  match dv with
                  | .lit n => if 0 ≤ n then acc * n else acc
                  | .paramV _ => acc
                  | .ref _ _ => acc) s))
  | fuel, .paramI p =>
    match p.typeid with
    | none => .ok (some 0)
    | some t =>
      if t = 0 then .ok (some 0)
      else if t < 0 then
        match primAt (-t).toNat with
        | some pr => .ok (some (pr.size : Int))
        | none => .error .attributeError
      else
        match fuel with
        | 0 => .error .nonterm
        | fuel + 1 =>
          match self.pyGet t with
          | .error e => .error e
          | .ok it => self.sizeOfItem fuel it
  | _, .dictI _ => .error .attributeError
  | _, .listI _ => .error .attributeError
  | _, .typeI _ => .error .attributeError

/-- Size of the handle at index `i` (`layout.l_item(i).size`). -/
def Layout.handleSize (self : Layout) (fuel : Nat) (i : Int) :
    Except PyErr (Option Int) :=
  match self.pyGet i with
  | .error e => .error e
  | .ok it => self.sizeOfItem fuel it

/-- Embedding of `LData.size` on a datum payload (layout.py lines 410-431);
see `sizeOfItem` for the walkthrough. -/
def Layout.lDataSize (self : Layout) (fuel : Nat) (d : PData) :
    Except PyErr (Option Int) :=
  self.sizeOfItem fuel (.dataI d)

/-- Embedding of `LData.alignment` (layout.py lines 395-408).  A truthy align
slot answers directly: positive is the alignment, negative (an Address) is
None.  When the slot is 0 the source falls through to line 403,
`typeid = layout[self.itemid].typeid`, where the bare name `layout` is
unbound (this method, unlike `size` at line 413, never binds a local
`layout`), so the whole inheritance path - type alignment, then primitive
default - raises NameError. -/
def Layout.lDataAlignment (_self : Layout) (d : PData) :
    Except PyErr (Option Int) :=
  if d.align ≠ 0 then .ok (if 0 < d.align then some d.align else none)
  else .error .nameError

/-- Embedding of `LType.close` (layout.py lines 931-937): a non-negative
align means the compound is not open, raising TypeError; otherwise the align
slot is negated in place, marking the compound closed.  The facade never
builds an LType handle for another payload kind, so only the type payload is
modelled; any other is answered with AttributeError. -/
def Layout.lTypeClose (self : Layout) (itemid : Int) :
    Except PyErr Unit × Layout :=
  match self.pyIdx itemid with
  | none => (.error .indexError, self)
  | some j =>
    match self.items[j]? with
    | none => (.error .indexError, self)
    | some (.typeI t) =>
      if 0 ≤ t.align then (.error .typeError, self)
      else (.ok (), self.setIdx j (.typeI { t with align := -t.align }))
    | some _ => (.error .attributeError, self)

/-- Embedding of `LType.__setitem__` (layout.py lines 1004-1033).  Line 1007
binds the negation of the stored align (the running alignment of an open
compound is stored negated, line 1051).  Line 1008 then raises the
closed-LType TypeError when `item.align <= 0` - but a negative align is
precisely the OPEN marker, so the guard rejects every open compound (the
fresh compound has align -1) and lets closed ones (positive align) through:
it is inverted with respect to its own error message and to `close`.  A call
that passes the guard reaches `add_item` (line 1014), which raises for every
datatype argument; the remainder (member alignment maximum, line 1019-1022,
and size rounded up to the member alignment, lines 1024-1033, where
`size & (malign-1)` is the remainder modulo the power-of-two malign) is
modelled but unreachable downstream of those errors. -/
def Layout.lTypeSetitem (self : Layout) (itemid : Int) (name : String)
    (datatype : AddArg) (shape : Option (List Int)) (alignArg : Option Int)
    (filt : Option String) (fuel : Nat) : Except PyErr Unit × Layout :=
  match self.pyIdx itemid with
  | none => (.error .indexError, self)
  | some j =>
    match self.items[j]? with
    | none => (.error .indexError, self)
    | some (.typeI t) =>
      if t.align ≤ 0 then (.error .typeError, self)
      else
        let align0 := -t.align
        match self.add_item itemid (some name) datatype shape alignArg filt fuel with
        | (.error e, L1) => (.error e, L1)
        | (.ok _, L1) =>
          match L1.handleAlign (-1) with
          | .error e => (.error e, L1)
          | .ok none => (.error .typeError, L1)
          | .ok (some malign) =>
            let align1 := if align0 < malign then malign else align0
            match t.size with
            | none => (.ok (), L1.setIdx j (.typeI { t with align := -align1 }))
            | some s =>
              match L1.handleSize fuel (-1) with
              | .error e => (.error e, L1.setIdx j (.typeI { t with align := -align1 }))
              | .ok none =>
                (.ok (), L1.setIdx j (.typeI { t with align := -align1, size := none }))
              | .ok (some ms) =>
                let rem := s % malign
                let s1 := if rem ≠ 0 then s + (malign - rem) else s
                (.ok (), L1.setIdx j (.typeI { t with align := -align1, size := some (s1 + ms) }))
    | some _ => (.error .attributeError, self)

/-! ## Claim-side resolution relation (for the amended claim C8) -/

/-- Claim-side statement of datatype resolution, following the claim text:
a type id resolves to primitive number `n` when it is `-n` directly, or when
it addresses a typedef whose single anonymous member is a datum with no
shape and no filter and whose own typeid resolves to `n`. -/
inductive ResolvesToPrim (L : Layout) : Int → Nat → Prop where
  | prim (n : Nat) (h1 : 1 ≤ n) (h2 : n ≤ 50) : ResolvesToPrim L (-(n : Int)) n
  | step (tid : Int) (t : PType) (m : Nat) (d : PData) (tid2 : Int) (n : Nat)
      (hpos : 0 < tid)
      (hit : L.pyGet tid = .ok (.typeI t))
      (hm : t.members = .anon m)
      (hd : L.pyGet (m : Int) = .ok (.dataI d))
      (hshape : shapeTruthy d.shape = false)
      (hfilt : d.filt = none)
      (htid : d.typeid = some tid2)
      (hrec : ResolvesToPrim L tid2 n) : ResolvesToPrim L tid n

/-! ## Concrete fixtures used by the closed theorems -/

/-- Root dict payload of a fresh layout (`Layout.__init__`, line 117). -/
def rootDict : Item :=
  .dictI { parent := none, name := none, items := [], params := none,
           types := none }

/-- Fresh layout: the arena holds only the root dict. -/
def L0 : Layout := { items := [rootDict], params := none }

/-- Layout whose item 1 is a dynamic parameter (datatype `|i4`). -/
def Lp : Layout :=
  { items := [rootDict,
      Item.paramI { parent := 0, name := some "p", pid := 0,
                    typeid := some (-12), align := none }],
    params := some [1] }

/-- Datum payload of type `|i4` (typeid -12) with shape (3,) and no explicit
alignment. -/
def dI4x3 : PData :=
  { parent := 0, name := some "x", typeid := some (-12), shape := some [3],
    align := 0, filt := none }

/-- Datum payload of type `|i4` with explicit alignment 8. -/
def dAt8 : PData :=
  { parent := 0, name := some "y", typeid := some (-12), shape := none,
    align := 8, filt := none }

/-- Layout holding the `|i4 [3]` datum at item 1. -/
def Ld : Layout := { items := [rootDict, Item.dataI dI4x3], params := none }

/-- Fresh open compound payload (`_Type.__init__`: size 0, align -1). -/
def openT : PType :=
  { parent := 0, name := some "T", members := .compound [], size := some 0,
    align := -1 }

/-- Layout with a fresh open compound at item 1. -/
def Lt : Layout := { items := [rootDict, Item.typeI openT], params := none }

/-- Layout with a closed compound (alignment 8) at item 1. -/
def LtC : Layout :=
  { items := [rootDict, Item.typeI { openT with align := 8 }], params := none }

/-- Layout whose root dict has type name T bound to item 1. -/
def LtT : Layout :=
  { items := [.dictI { parent := none, name := none, items := [],
                       params := none, types := some [("T", 1)] },
      Item.typeI { openT with align := 8 }],
    params := none }

/-- Fixture for the parameter datatype check: item 1 is a closed typedef of
`|i4` (member at 2), item 3 a closed compound, item 4 a closed typedef whose
member at 5 carries a shape. -/
def LC8 : Layout :=
  { items := [rootDict,
      Item.typeI { parent := 0, name := some "T", members := .anon 2,
                   size := some 4, align := 4 },
      Item.dataI { parent := 1, name := none, typeid := some (-12),
                   shape := none, align := 0, filt := none },
      Item.typeI { parent := 0, name := some "C",
                   members := .compound [("a", 2)], size := some 4,
                   align := 4 },
      Item.typeI { parent := 0, name := some "S", members := .anon 5,
                   size := some 12, align := 4 },
      Item.dataI { parent := 4, name := none, typeid := some (-12),
                   shape := some [3], align := 0, filt := none }],
    params := none }


end Dudley

deriving instance DecidableEq for Except

namespace Dudley

/-! ## Theorems -/

/-- C10: for every integer a at least -1, `Address(a)` succeeds and stores
`-2 - a`, which is negative, and its `address` property recovers a; for
every a below -1 the constructor raises ValueError. -/
theorem C10_address_roundtrip (a : Int) :
    (-1 ≤ a → Address_new a = .ok (-2 - a) ∧ -2 - a < 0 ∧
      Address_address (-2 - a) = a) ∧
    (a < -1 → Address_new a = .error .valueError) := by
  constructor
  · intro h
    refine ⟨?_, by omega, by simp [Address_address]⟩
    have hx : ¬(a < -1) := by omega
    simp only [Address_new, if_neg hx]
  · intro h
    simp only [Address_new, if_pos h]

/-- Witness for C10 at the concrete inputs 5 and -3. -/
theorem C10_address_roundtrip_witness :
    (Address_new 5 = .ok (-7) ∧ Address_address (-7) = 5) ∧
    Address_new (-3) = .error .valueError := by
  have h5 := (C10_address_roundtrip 5).1 (by norm_num)
  have h3 := (C10_address_roundtrip (-3)).2 (by norm_num)
  exact ⟨⟨by simpa using h5.1, by simpa using h5.2.2⟩, h3⟩

/-- C1: the dimension codec does not round-trip on parameter references as
the code stands.  Encoding the reference (parameter id 1, offset 0) yields
-32, but `decode_dim` raises NameError on every encoded parameter reference,
because line 165 reads the unbound bare name `layout`; integer dimensions at
least -1 do round-trip.  (Even with that name repaired, the reference
(id 1, offset 31) encodes to -1, which decodes as the literal -1.) -/
theorem C1_decode_of_encode_raises :
    Lp.encode_dim (.refH ⟨Lp, 1⟩ 0) = .ok (-32) ∧
    Lp.decode_dim (-32) = .error .nameError ∧
    (∀ d : Int, -1 ≤ d → Lp.decode_dim d = .ok (.lit d)) ∧
    Lp.encode_dim (.refH ⟨Lp, 1⟩ 31) = .ok (-1) := by
  refine ⟨by rfl, by rfl, ?_, by rfl⟩
  intro d hd
  simp only [Layout.decode_dim, if_pos hd]

/-- Supporting result (not itself a claim): with the unbound name of
decode_dim line 165 repaired to `self`, the round-trip holds for every
parameter id at least 1 and offset in [-31, 31] except the collision
(id 1, offset 31), whose encoding -1 decodes as the literal -1. -/
theorem decode_dim_repaired_roundtrip (L : Layout) (p : Nat) (k : Int)
    (hp : 1 ≤ p) (hk1 : -31 ≤ k) (hk2 : k ≤ 31) (hcol : ¬(p = 1 ∧ k = 31)) :
    L.decode_dim_repaired (-(p : Int) * 64 + (k + 32)) =
      (if k = 0 then .paramV (p : Int) else .ref (p : Int) k) := by
  have hple : (1 : Int) ≤ (p : Int) := by exact_mod_cast hp
  have hcol2 : ¬((p : Int) = 1 ∧ k = 31) := by
    intro hx
    exact hcol ⟨by exact_mod_cast hx.1, hx.2⟩
  set d : Int := -(p : Int) * 64 + (k + 32) with hd
  have hlt : ¬(-1 ≤ d) := by
    rcases eq_or_lt_of_le hple with h1 | h2
    · have : ¬(k = 31) := fun hk => hcol2 ⟨h1.symm, hk⟩
      omega
    · omega
  have hmod : d % 64 - 32 = k := by omega
  have hdiv : -(d / 64) = (p : Int) := by omega
  simp only [Layout.decode_dim_repaired, if_neg hlt, hmod, hdiv]

/-- C2 counterexample: the parameter reference (id 1, offset 0) encodes to
-32, which is not below -64, and (id 1, offset 31) encodes to -1, a literal
slot value at least -1 - both contradicting the claimed partition. -/
theorem C2_encode_partition_counterexample :
    Lp.encode_dim (.refH ⟨Lp, 1⟩ 0) = .ok (-32) ∧ ¬((-32 : Int) < -64) ∧
    Lp.encode_dim (.refH ⟨Lp, 1⟩ 31) = .ok (-1) ∧ (-1 : Int) ≥ -1 := by
  exact ⟨by rfl, by norm_num, by rfl, by norm_num⟩

/-- C2 amended: for a parameter reference with arena id p at least 1 and
offset k in [-31, 31], `encode_dim` returns -64p + (k + 32); its remainder
modulo 64 is k + 32 (the low six bits) and its floor quotient by 64 is -p
(the sign-extended upper bits).  The encoded value is below -64 exactly when
p is at least 2; for p = 1 it lies in [-63, -1] and so can collide with the
literal slot -1 (at offset 31). -/
theorem C2_encode_partition_amended (L : Layout) (p : Nat) (k : Int)
    (hp : 1 ≤ p) (hk1 : -31 ≤ k) (hk2 : k ≤ 31) :
    L.encode_dim (.refH ⟨L, p⟩ k) = .ok (-(p : Int) * 64 + (k + 32)) ∧
    (-(p : Int) * 64 + (k + 32)) % 64 = k + 32 ∧
    (-(p : Int) * 64 + (k + 32)) / 64 = -(p : Int) ∧
    (2 ≤ p → -(p : Int) * 64 + (k + 32) < -64) ∧
    (p = 1 → -63 ≤ -(p : Int) * 64 + (k + 32) ∧
             -(p : Int) * 64 + (k + 32) ≤ -1) := by
  have hple : (1 : Int) ≤ (p : Int) := by exact_mod_cast hp
  refine ⟨?_, by omega, by omega, ?_, ?_⟩
  · simp [Layout.encode_dim]
  · intro h2
    have : (2 : Int) ≤ (p : Int) := by exact_mod_cast h2
    omega
  · intro h1
    subst h1
    norm_num
    omega

/-- Witness for C2 amended at p = 2, k = 5 and p = 1, k = 0. -/
theorem C2_encode_partition_amended_witness :
    Lp.encode_dim (.refH ⟨Lp, 2⟩ 5) = .ok (-(2 : Int) * 64 + (5 + 32)) ∧
    -(2 : Int) * 64 + (5 + 32) < -64 ∧
    Lp.encode_dim (.refH ⟨Lp, 1⟩ 0) = .ok (-(1 : Int) * 64 + (0 + 32)) := by
  have h2 := C2_encode_partition_amended Lp 2 5 (by norm_num) (by norm_num)
    (by norm_num)
  have h1 := C2_encode_partition_amended Lp 1 0 (by norm_num) (by norm_num)
    (by norm_num)
  exact ⟨h2.1, h2.2.2.2.1 (by norm_num), h1.1⟩

/-- C3: the open or closed state machine of compound types is broken in
`__setitem__`.  A fresh compound is open (align stored negated, here -1) and
`close` works on it and fails on a type that is not open, but
`LType.__setitem__` on the open compound raises TypeError (its guard
`item.align <= 0` rejects exactly the open marker its own comment and error
message describe), instead of appending the member. -/
theorem C3_open_type_setitem_raises :
    Layout.lTypeSetitem Lt 1 "x" (.nameA "|i4") none none none 9 =
      (.error .typeError, Lt) ∧
    Layout.lTypeClose Lt 1 =
      (.ok (), { items := [rootDict, Item.typeI { openT with align := 1 }],
                 params := none }) ∧
    Layout.lTypeClose LtC 1 = (.error .typeError, LtC) := by
  exact ⟨by rfl, by rfl, by rfl⟩

/-- C4: id stability fails because the append operations themselves raise.
`add_item` on the root dict of a fresh layout raises AttributeError before
storing anything (line 188 calls `.get` on the integer parent id), so no id
is returned; the typedef variant of `add_type` appends the `_Type` item but
then raises (TypeError from `add_item`, or NameError at line 242), never
returning the id.  `add_param` does return the arena length and stores the
item there. -/
theorem C4_append_id_stability_broken :
    Layout.add_item L0 0 (some "x") .dictClass none none none 9 =
      (.error .attributeError, L0) ∧
    Layout.add_type L0 0 (some "T2") (some (.nameA "|i4")) none none 9 =
      (.error .typeError,
       L0.push (Item.typeI { parent := 0, name := some "T2",
                             members := .anon 2, size := some 0,
                             align := -1 })) ∧
    Layout.add_param L0 0 (some "n") none (some 5) =
      (.ok 1, { items := [rootDict,
                  Item.paramI { parent := 0, name := some "n", pid := 5,
                                typeid := none, align := none }],
                params := none }) := by
  exact ⟨by rfl, by rfl, by rfl⟩

/-- C5: the byte size of a datum of primitive type ignores the shape: the
`|i4 [3]` datum reports size 4 (the scalar size) instead of 12, because the
primitive branch of `LData.size` (line 421) returns before the shape loop. -/
theorem C5_data_size_prim_ignores_shape :
    Layout.lDataSize Ld 9 dI4x3 = .ok (some 4) ∧ (4 : Int) ≠ 4 * 3 := by
  exact ⟨by rfl, by norm_num⟩

/-- C6: the effective alignment of a datum is its explicit alignment when
one was set, but the inheritance path (type alignment, else primitive
default) raises NameError: line 403 of `LData.alignment` reads the unbound
bare name `layout`.  The `|i4` datum with unset alignment should report 4
and instead raises. -/
theorem C6_alignment_inheritance_raises :
    Layout.lDataAlignment Ld dI4x3 = .error .nameError ∧
    Layout.lDataAlignment Ld dAt8 = .ok (some 8) := by
  exact ⟨by rfl, by rfl⟩

/-- C7: setting any item name through the dict handle raises AttributeError
(line 188 of `add_item` calls `.get` on the integer parent id), even for a
fresh name where the claim expects success, so the redeclaration check never
runs; the arena is left unchanged.  Declaring a type name already present in
the types map of the dict does fail with the redeclaration ValueError. -/
theorem C7_redeclaration_behaviour :
    Layout.lDictSetitem L0 0 "w" (.nameA "|i4") none none none 9 =
      (.error .attributeError, L0) ∧
    Layout.dictTypesCall LtT 0 (some "T") none none none 9 =
      (.error .valueError, LtT) := by
  exact ⟨by rfl, by rfl⟩

/-- Successor step of the probe sequence: the next probe after probe k is
probe (k+1). -/
theorem probeAt_succ (k : Nat) : probeAt (k + 1) = nextProbe (probeAt k) := by
  cases k with
  | zero => rfl
  | succ n =>
    have h1 : probeAt (n + 1) = 512 * 2 ^ n := by simp [probeAt]
    have h2 : probeAt (n + 2) = 512 * 2 ^ (n + 1) := by simp [probeAt]
    have hne : 512 * 2 ^ n ≠ 0 := by positivity
    rw [h1, h2, nextProbe, if_neg hne, pow_succ]
    ring

/-- The probe sequence is strictly increasing. -/
theorem probeAt_lt_succ (k : Nat) : probeAt k < probeAt (k + 1) := by
  cases k with
  | zero => simp [probeAt]
  | succ n =>
    have h1 : probeAt (n + 1) = 512 * 2 ^ n := by simp [probeAt]
    have h2 : probeAt (n + 2) = 512 * 2 ^ (n + 1) := by simp [probeAt]
    rw [h1, h2]
    have : (2 : Nat) ^ n < 2 ^ (n + 1) := by
      exact Nat.pow_lt_pow_right (by norm_num) (by omega)
    omega

/-- Monotonicity of the probe sequence. -/
theorem probeAt_mono : Monotone probeAt :=
  (strictMono_nat_of_lt_succ probeAt_lt_succ).monotone

/-- Characterization of the probing loop started at probe k: it answers
`some a` exactly when a is a later probe offset, in range, carrying the
signature, and no probe from k up to it carries the signature. -/
theorem findSig_probe_iff (sig : Nat → Bool) (size : Nat) :
    ∀ (n k : Nat) (a : Nat), size ≤ probeAt k + n →
      (findSig sig size (probeAt k) = some a ↔
        ∃ m, k ≤ m ∧ a = probeAt m ∧ probeAt m + 8 < size ∧
          sig (probeAt m) = true ∧
          ∀ j, k ≤ j → j < m → sig (probeAt j) = false) := by
  intro n
  induction n with
  | zero =>
    intro k a hle
    have hguard : ¬(probeAt k + 8 < size) := by omega
    rw [findSig, if_neg hguard]
    constructor
    · intro h
      exact absurd h (by simp)
    · rintro ⟨m, hkm, _, hsz, _, _⟩
      have := probeAt_mono hkm
      omega
  | succ n ih =>
    intro k a hle
    by_cases hguard : probeAt k + 8 < size
    · rw [findSig, if_pos hguard]
      by_cases hsig : sig (probeAt k) = true
      · rw [if_pos hsig]
        constructor
        · intro h
          exact ⟨k, le_refl k, (Option.some.inj h).symm, hguard, hsig,
            fun j h1 h2 => absurd (lt_of_le_of_lt h1 h2) (lt_irrefl k)⟩
        · rintro ⟨m, hkm, ha, _, hsigm, hfirst⟩
          rcases Nat.eq_or_lt_of_le hkm with heq | hlt
          · rw [ha, heq]
          · exact absurd hsig (by simp [hfirst k (le_refl k) hlt])
      · rw [if_neg hsig]
        rw [show nextProbe (probeAt k) = probeAt (k + 1) from (probeAt_succ k).symm]
        have hle1 : size ≤ probeAt (k + 1) + n := by
          have := probeAt_lt_succ k
          omega
        rw [ih (k + 1) a hle1]
        constructor
        · rintro ⟨m, hk1m, ha, hsz, hsigm, hfirst⟩
          refine ⟨m, by omega, ha, hsz, hsigm, ?_⟩
          intro j h1 h2
          rcases Nat.eq_or_lt_of_le h1 with heq | hlt
          · rw [← heq]
            simpa using hsig
          · exact hfirst j hlt h2
        · rintro ⟨m, hkm, ha, hsz, hsigm, hfirst⟩
          have hmk : m ≠ k := by
            rintro rfl
            exact hsig hsigm
          exact ⟨m, by omega, ha, hsz, hsigm, fun j h1 h2 => hfirst j (by omega) h2⟩
    · rw [findSig, if_neg hguard]
      constructor
      · intro h
        exact absurd h (by simp)
      · rintro ⟨m, hkm, _, hsz, _, _⟩
        have := probeAt_mono hkm
        omega

/-- C9: the superblock search probes for the signature exactly at the file
offsets 0, 512, 1024, 2048, doubling, while the probed offset plus 8 is
within the file; it answers the first offset of that sequence where the
signature matches, and raises the terminal ValueError exactly when the
signature is at none of the probed offsets. -/
theorem C9_superblock_probe_sequence (sig : Nat → Bool) (size : Nat) :
    (∀ a, superblockSearch sig size = .ok a ↔
       ∃ k, a = probeAt k ∧ a + 8 < size ∧ sig a = true ∧
         ∀ j, j < k → sig (probeAt j) = false) ∧
    (superblockSearch sig size = .error .valueError ↔
       ∀ k, probeAt k + 8 < size → sig (probeAt k) = false) := by
  have hchar := fun a => findSig_probe_iff sig size size 0 a (by simp [probeAt])
  have hfs : ∀ a, findSig sig size 0 = some a ↔
      ∃ k, a = probeAt k ∧ probeAt k + 8 < size ∧ sig (probeAt k) = true ∧
        ∀ j, j < k → sig (probeAt j) = false := by
    intro a
    have h0 : probeAt 0 = 0 := rfl
    rw [← h0, hchar a]
    constructor
    · rintro ⟨m, _, ha, hsz, hsigm, hfirst⟩
      exact ⟨m, ha, hsz, hsigm, fun j hj => hfirst j (Nat.zero_le j) hj⟩
    · rintro ⟨m, ha, hsz, hsigm, hfirst⟩
      exact ⟨m, Nat.zero_le m, ha, hsz, hsigm, fun j _ hj => hfirst j hj⟩
  constructor
  · intro a
    rcases hx : findSig sig size 0 with _ | b
    · simp only [superblockSearch, hx]
      constructor
      · intro h
        exact absurd h (by simp)
      · rintro ⟨k, ha, hsz, hsiga, hfirst⟩
        have : findSig sig size 0 = some a := by
          rw [hfs a]
          exact ⟨k, ha, ha ▸ hsz, ha ▸ hsiga, hfirst⟩
        rw [hx] at this
        exact absurd this (by simp)
    · simp only [superblockSearch, hx]
      have hb := (hfs b).mp hx
      constructor
      · intro h
        have hab : b = a := by
          have := Except.ok.inj h
          exact this
        rcases hb with ⟨k, hbk, hsz, hsigb, hfirst⟩
        exact ⟨k, hab ▸ hbk, hab ▸ (hbk ▸ hsz), hab ▸ (hbk ▸ hsigb), hfirst⟩
      · rintro ⟨k, ha, hsz, hsiga, hfirst⟩
        have : findSig sig size 0 = some a := by
          rw [hfs a]
          exact ⟨k, ha, ha ▸ hsz, ha ▸ hsiga, hfirst⟩
        rw [hx] at this
        rw [Option.some.inj this]
  · rcases hx : findSig sig size 0 with _ | b
    · simp only [superblockSearch, hx]
      constructor
      · intro _ k hk
        by_contra hne
        have hsigk : sig (probeAt k) = true := by
          cases hsk : sig (probeAt k) with
          | false => exact absurd hsk hne
          | true => rfl
        have hex : ∃ m, probeAt m + 8 < size ∧ sig (probeAt m) = true :=
          ⟨k, hk, hsigk⟩
        classical
        have hfind := Nat.find_spec hex
        set m0 := Nat.find hex with hm0
        have hfirst : ∀ j, j < m0 → sig (probeAt j) = false := by
          intro j hj
          have hnot := Nat.find_min hex hj
          by_contra hne2
          have hsigj : sig (probeAt j) = true := by
            cases hsj : sig (probeAt j) with
            | false => exact absurd hsj hne2
            | true => rfl
          have hszj : probeAt j + 8 < size := by
            have hmono := probeAt_mono (le_of_lt hj)
            omega
          exact hnot ⟨hszj, hsigj⟩
        have : findSig sig size 0 = some (probeAt m0) := by
          rw [hfs (probeAt m0)]
          exact ⟨m0, rfl, hfind.1, hfind.2, hfirst⟩
        rw [hx] at this
        exact absurd this (by simp)
      · intro _
        trivial
    · simp only [superblockSearch, hx]
      have hb := (hfs b).mp hx
      constructor
      · intro h
        exact absurd h (by simp)
      · intro hall
        rcases hb with ⟨k, hbk, hsz, hsigb, _⟩
        have hfk := hall k hsz
        rw [hfk] at hsigb
        exact absurd hsigb (by simp)

/-- Witness for C9: in a 5000-byte file with the signature exactly at 1024,
the search answers 1024 (probes 0 and 512 fail first); with no signature
anywhere in a 300-byte file it raises ValueError. -/
theorem C9_superblock_probe_sequence_witness :
    superblockSearch (fun a => a == 1024) 5000 = .ok 1024 ∧
    superblockSearch (fun _ => false) 300 = .error .valueError := by
  constructor
  · exact ((C9_superblock_probe_sequence (fun a => a == 1024) 5000).1 1024).mpr
      ⟨2, by decide, by decide, by decide, by decide⟩
  · exact ((C9_superblock_probe_sequence (fun _ => false) 300).2).mpr
      (fun k _ => rfl)



/-! ## The parameter datatype check (claim C8) -/

/-- Reading the arena at a natural index through the Python indexing rules is
plain list lookup. -/
theorem pyGet_nat_iff {L : Layout} {j : Nat} {it : Item} :
    L.pyGet (j : Int) = .ok it ↔ L.items[j]? = some it := by
  unfold Layout.pyGet Layout.pyIdx
  by_cases hj : j < L.items.length
  · rw [if_pos ⟨Int.natCast_nonneg j, by exact_mod_cast hj⟩, Int.toNat_natCast]
    cases hg : L.items[j]? <;> simp [hg]
  · have hnone : L.items[j]? = none := List.getElem?_eq_none (by omega)
    have h1 : ¬(0 ≤ (j : Int) ∧ (j : Int) < (L.items.length : Int)) := by
      intro hx
      exact hj (by exact_mod_cast hx.2)
    have h2 : ¬(-(L.items.length : Int) ≤ (j : Int) ∧ (j : Int) < 0) := by
      intro hx
      have := Int.natCast_nonneg j
      omega
    rw [if_neg h1, if_neg h2, hnone]
    simp

/-- Normalizing a valid natural index is the identity. -/
theorem pyIdx_nat {L : Layout} {j : Nat} (h : j < L.items.length) :
    L.pyIdx (j : Int) = some j := by
  unfold Layout.pyIdx
  rw [if_pos ⟨Int.natCast_nonneg j, by exact_mod_cast h⟩, Int.toNat_natCast]

/-- Appending does not move earlier items. -/
theorem getElem_push_lt {L : Layout} {j : Nat} (it : Item)
    (h : j < L.items.length) : (L.push it).items[j]? = L.items[j]? := by
  simp only [Layout.push]
  exact List.getElem?_append_left h

/-- Arena length after an append. -/
theorem push_length (L : Layout) (it : Item) :
    (L.push it).items.length = L.items.length + 1 := by
  simp [Layout.push]

/-- Arithmetic form of the integer-kind test of line 610: among the fifty
table slots, the remainder test singles out exactly the u and i columns. -/
theorem intKind_arith : ∀ n : Nat, n < 51 → 1 ≤ n →
    ((n - 1) % 5 ≤ 1 ↔ isIntPrim n = true) := by decide

/-- A successful typedef-chain walk witnesses the claim-side resolution
relation: the final id is non-positive, and when it is a primitive number in
range, the starting id resolves to that primitive. -/
theorem paramChain_ok_resolves (L : Layout) :
    ∀ (fuel : Nat) (tid tidF : Int), L.paramChain fuel tid = .ok tidF →
      tidF ≤ 0 ∧ ∀ n : Nat, tidF = -(n : Int) → 1 ≤ n → n ≤ 50 →
        ResolvesToPrim L tid n := by
  intro fuel
  induction fuel with
  | zero =>
    intro tid tidF h
    rw [Layout.paramChain] at h
    by_cases hpos : 0 < tid
    · rw [if_pos hpos] at h
      exact absurd h (by simp)
    · rw [if_neg hpos] at h
      have htf : tid = tidF := Except.ok.inj h
      subst htf
      refine ⟨by omega, ?_⟩
      rintro n rfl h1 h2
      exact ResolvesToPrim.prim n h1 h2
  | succ f ih =>
    intro tid tidF h
    rw [Layout.paramChain] at h
    by_cases hpos : 0 < tid
    · rw [if_pos hpos] at h
      cases hg : L.pyGet tid with
      | error e =>
        rw [hg] at h
        exact absurd h (by simp)
      | ok it =>
        rw [hg] at h
        cases it with
        | typeI t =>
          cases hm : t.members with
          | compound m =>
            simp only [hm] at h
            exact absurd h (by simp)
          | anon m =>
            simp only [hm] at h
            cases hgm : L.pyGet (m : Int) with
            | error e =>
              rw [hgm] at h
              exact absurd h (by simp)
            | ok mit =>
              rw [hgm] at h
              cases mit with
              | dataI d =>
                simp only [] at h
                by_cases hsf : (shapeTruthy d.shape || d.filt.isSome) = true
                · rw [if_pos hsf] at h
                  exact absurd h (by simp)
                · rw [if_neg hsf] at h
                  have hb : shapeTruthy d.shape = false ∧ d.filt.isSome = false := by
                    simpa using hsf
                  have hfn : d.filt = none :=
                    Option.not_isSome_iff_eq_none.1 (by simp [hb.2])
                  cases htid : d.typeid with
                  | none =>
                    rw [htid] at h
                    exact absurd h (by simp)
                  | some t2 =>
                    rw [htid] at h
                    simp only [] at h
                    have hrec := ih t2 tidF h
                    refine ⟨hrec.1, ?_⟩
                    intro n hn h1 h2
                    exact ResolvesToPrim.step tid t m d t2 n hpos hg hm hgm
                      hb.1 hfn htid (hrec.2 n hn h1 h2)
              | dictI d2 => exact absurd h (by simp)
              | listI l2 => exact absurd h (by simp)
              | paramI p2 => exact absurd h (by simp)
              | typeI t2 => exact absurd h (by simp)
        | dictI d2 => exact absurd h (by simp)
        | listI l2 => exact absurd h (by simp)
        | dataI d2 => exact absurd h (by simp)
        | paramI p2 => exact absurd h (by simp)
    · rw [if_neg hpos] at h
      have htf : tid = tidF := Except.ok.inj h
      subst htf
      refine ⟨by omega, ?_⟩
      rintro n rfl h1 h2
      exact ResolvesToPrim.prim n h1 h2

/-- Fixed-parameter creation: an integral value at least -1 appends a fixed
parameter at the old arena length and binds the name in the dict params
map. -/
theorem dictParams_fixed_ok (L : Layout) (dictid : Nat) (nm : String)
    (v : Int) (al : Option Int) (fuel : Nat) (dct : PDict)
    (hdict : L.pyGet (dictid : Int) = .ok (.dictI dct)) (hv : -1 ≤ v) :
    L.dictParamsCall dictid nm (.intVal v) al fuel =
      (.ok L.items.length,
       (L.push (Item.paramI { parent := (dictid : Int), name := some nm,
                              pid := v, typeid := none,
                              align := none })).setIdx dictid
         (.dictI { dct with params := some (alSet (dct.params.getD []) nm L.items.length) })) := by
  have hget : L.items[dictid]? = some (.dictI dct) := pyGet_nat_iff.1 hdict
  have hlt : dictid < L.items.length := by
    by_contra hge
    rw [List.getElem?_eq_none (by omega)] at hget
    cases hget
  have hap : L.add_param (dictid : Int) (some nm) none (some v) =
      (.ok L.items.length,
       L.push (Item.paramI { parent := (dictid : Int), name := some nm,
                             pid := v, typeid := none, align := none })) := by
    unfold Layout.add_param
    simp only []
    rw [if_neg (by omega : ¬(v < -1))]
  unfold Layout.dictParamsCall
  rw [hdict]
  simp only []
  rw [hap]
  simp only []
  unfold Layout.finishParams
  rw [pyIdx_nat (by rw [push_length]; omega)]
  simp only []
  rw [getElem_push_lt _ hlt, hget]

/-- Fixed-parameter creation with a value below -1 raises ValueError and
leaves the layout unchanged. -/
theorem dictParams_fixed_neg (L : Layout) (dictid : Nat) (nm : String)
    (v : Int) (al : Option Int) (fuel : Nat) (it : Item)
    (hdict : L.pyGet (dictid : Int) = .ok it) (hv : v < -1) :
    L.dictParamsCall dictid nm (.intVal v) al fuel =
      (.error .valueError, L) := by
  unfold Layout.dictParamsCall
  rw [hdict]
  simp only []
  unfold Layout.add_param
  simp only []
  rw [if_pos hv]

/-- Soundness half of the datatype check: a dynamic parameter is created
only when the resolved type id resolves through shape-free, filter-free
typedefs to an integer-kind primitive. -/
theorem dictParams_dtype_only_int (L L2 : Layout) (dictid pid : Nat)
    (nm : String) (r : DTypeRef) (al : Option Int) (fuel : Nat)
    (h : L.dictParamsCall dictid nm (.dtype r) al fuel = (.ok pid, L2)) :
    ∃ (dct : PDict) (tid : Int) (n : Nat),
      L.pyGet (dictid : Int) = .ok (.dictI dct) ∧
      L.dictGetTypeid dct r fuel = .ok tid ∧
      1 ≤ n ∧ n ≤ 50 ∧ isIntPrim n = true ∧ ResolvesToPrim L tid n := by
  unfold Layout.dictParamsCall at h
  cases hg : L.pyGet (dictid : Int) with
  | error e =>
    rw [hg] at h
    exact absurd h (by simp)
  | ok it =>
    rw [hg] at h
    cases it with
    | dictI dct =>
      simp only [] at h
      cases hgt : L.dictGetTypeid dct r fuel with
      | error e =>
        rw [hgt] at h
        exact absurd h (by simp)
      | ok typeid =>
        rw [hgt] at h
        simp only [] at h
        cases hpc : L.paramChain fuel typeid with
        | error e =>
          rw [hpc] at h
          exact absurd h (by simp)
        | ok tidF =>
          rw [hpc] at h
          simp only [] at h
          by_cases hk : -1 < tidF ∨ tidF < -50 ∨ 1 < (-1 - tidF) % 5
          · rw [if_pos hk] at h
            exact absurd h (by simp)
          · rw [if_neg hk] at h
            push_neg at hk
            obtain ⟨hk1, hk2, hk3⟩ := hk
            have hres := paramChain_ok_resolves L fuel typeid tidF hpc
            have h1n : 1 ≤ (-tidF).toNat := by omega
            have h50n : (-tidF).toNat ≤ 50 := by omega
            have htn : tidF = -(((-tidF).toNat : Nat) : Int) := by omega
            have hmod : ((-tidF).toNat - 1) % 5 ≤ 1 := by omega
            exact ⟨dct, typeid, (-tidF).toNat, rfl, hgt, h1n, h50n,
              (intKind_arith (-tidF).toNat (by omega) h1n).1 hmod,
              hres.2 (-tidF).toNat htn h1n h50n⟩
    | listI l2 => exact absurd h (by simp)
    | dataI d2 => exact absurd h (by simp)
    | paramI p2 => exact absurd h (by simp)
    | typeI t2 => exact absurd h (by simp)


/-- A compound datatype (dict-valued members) raises TypeError in the
parameter datatype check. -/
theorem dictParams_compound_raises (L : Layout) (dictid : Nat) (nm : String)
    (tid : Int) (t : PType) (ms : List (String × Nat)) (al : Option Int)
    (fuel : Nat) (dct : PDict)
    (hdict : L.pyGet (dictid : Int) = .ok (.dictI dct))
    (hpos : 0 < tid) (ht : L.pyGet tid = .ok (.typeI t))
    (hm : t.members = .compound ms) :
    L.dictParamsCall dictid nm (.dtype (.handleR tid)) al (fuel + 1) =
      (.error .typeError, L) := by
  have hpc : L.paramChain (fuel + 1) tid = .error .typeError := by
    rw [Layout.paramChain.eq_def]
    simp only []
    rw [if_pos hpos]
    rw [ht]
    simp only [hm]
  unfold Layout.dictParamsCall
  rw [hdict]
  simp only []
  rw [show L.dictGetTypeid dct (.handleR tid) (fuel + 1) = .ok tid from rfl]
  simp only []
  rw [hpc]

/-- A primitive datatype that is not of integer kind raises TypeError in the
parameter datatype check. -/
theorem dictParams_nonint_prim_raises (L : Layout) (dictid : Nat)
    (nm : String) (n : Nat) (al : Option Int) (fuel : Nat) (dct : PDict)
    (hdict : L.pyGet (dictid : Int) = .ok (.dictI dct))
    (h1 : 1 ≤ n) (h50 : n ≤ 50) (hni : isIntPrim n = false) :
    L.dictParamsCall dictid nm (.dtype (.handleR (-(n : Int)))) al fuel =
      (.error .typeError, L) := by
  have hpc : L.paramChain fuel (-(n : Int)) = .ok (-(n : Int)) := by
    rw [Layout.paramChain.eq_def]
    simp only []
    rw [if_neg (by omega)]
  have hq : ¬((n - 1) % 5 ≤ 1) :=
    mt (intKind_arith n (by omega) h1).1 (by simp [hni])
  unfold Layout.dictParamsCall
  rw [hdict]
  simp only []
  rw [show L.dictGetTypeid dct (.handleR (-(n : Int))) fuel =
        .ok (-(n : Int)) from rfl]
  simp only []
  rw [hpc]
  simp only []
  rw [if_pos (by omega)]

/-- A typedef whose anonymous member carries a shape or a filter raises
TypeError in the parameter datatype check. -/
theorem dictParams_shaped_typedef_raises (L : Layout) (dictid : Nat)
    (nm : String) (tid : Int) (t : PType) (m : Nat) (d : PData)
    (al : Option Int) (fuel : Nat) (dct : PDict)
    (hdict : L.pyGet (dictid : Int) = .ok (.dictI dct))
    (hpos : 0 < tid) (ht : L.pyGet tid = .ok (.typeI t))
    (hm : t.members = .anon m) (hd : L.pyGet (m : Int) = .ok (.dataI d))
    (hsf : (shapeTruthy d.shape || d.filt.isSome) = true) :
    L.dictParamsCall dictid nm (.dtype (.handleR tid)) al (fuel + 1) =
      (.error .typeError, L) := by
  have hpc : L.paramChain (fuel + 1) tid = .error .typeError := by
    rw [Layout.paramChain.eq_def]
    simp only []
    rw [if_pos hpos]
    rw [ht]
    simp only [hm]
    rw [hd]
    simp only []
    rw [if_pos hsf]
  unfold Layout.dictParamsCall
  rw [hdict]
  simp only []
  rw [show L.dictGetTypeid dct (.handleR tid) (fuel + 1) = .ok tid from rfl]
  simp only []
  rw [hpc]


/-- C8 amended: through the dict handle, an integer literal at least -1
always creates a fixed parameter at the old arena length (an integer literal
below -1 raises ValueError); a dynamic parameter is created only when the
given datatype (a handle, or a name that the scope walk resolves) resolves
through a chain of typedefs, each with no shape and no filter, to a signed
or unsigned integer primitive; a compound datatype, a non-integer primitive,
and a shaped or filtered typedef each raise the type-mismatch TypeError.
(An unprefixed primitive name raises AttributeError instead, because the
interning call `layout.add_prim` of line 716 does not exist; see the
counterexample.) -/
theorem C8_param_datatype_check_amended :
    (∀ (L : Layout) (dictid : Nat) (nm : String) (v : Int) (al : Option Int)
       (fuel : Nat) (dct : PDict),
       L.pyGet (dictid : Int) = .ok (.dictI dct) → -1 ≤ v →
       L.dictParamsCall dictid nm (.intVal v) al fuel =
         (.ok L.items.length,
          (L.push (Item.paramI { parent := (dictid : Int), name := some nm,
                                 pid := v, typeid := none,
                                 align := none })).setIdx dictid
            (.dictI { dct with params := some (alSet (dct.params.getD []) nm L.items.length) }))) ∧
    (∀ (L : Layout) (dictid : Nat) (nm : String) (v : Int) (al : Option Int)
       (fuel : Nat) (it : Item),
       L.pyGet (dictid : Int) = .ok it → v < -1 →
       L.dictParamsCall dictid nm (.intVal v) al fuel =
         (.error .valueError, L)) ∧
    (∀ (L L2 : Layout) (dictid pid : Nat) (nm : String) (r : DTypeRef)
       (al : Option Int) (fuel : Nat),
       L.dictParamsCall dictid nm (.dtype r) al fuel = (.ok pid, L2) →
       ∃ (dct : PDict) (tid : Int) (n : Nat),
         L.pyGet (dictid : Int) = .ok (.dictI dct) ∧
         L.dictGetTypeid dct r fuel = .ok tid ∧
         1 ≤ n ∧ n ≤ 50 ∧ isIntPrim n = true ∧ ResolvesToPrim L tid n) ∧
    (∀ (L : Layout) (dictid : Nat) (nm : String) (tid : Int) (t : PType)
       (ms : List (String × Nat)) (al : Option Int) (fuel : Nat)
       (dct : PDict),
       L.pyGet (dictid : Int) = .ok (.dictI dct) → 0 < tid →
       L.pyGet tid = .ok (.typeI t) → t.members = .compound ms →
       L.dictParamsCall dictid nm (.dtype (.handleR tid)) al (fuel + 1) =
         (.error .typeError, L)) ∧
    (∀ (L : Layout) (dictid : Nat) (nm : String) (n : Nat) (al : Option Int)
       (fuel : Nat) (dct : PDict),
       L.pyGet (dictid : Int) = .ok (.dictI dct) → 1 ≤ n → n ≤ 50 →
       isIntPrim n = false →
       L.dictParamsCall dictid nm (.dtype (.handleR (-(n : Int)))) al fuel =
         (.error .typeError, L)) ∧
    (∀ (L : Layout) (dictid : Nat) (nm : String) (tid : Int) (t : PType)
       (m : Nat) (d : PData) (al : Option Int) (fuel : Nat) (dct : PDict),
       L.pyGet (dictid : Int) = .ok (.dictI dct) → 0 < tid →
       L.pyGet tid = .ok (.typeI t) → t.members = .anon m →
       L.pyGet (m : Int) = .ok (.dataI d) →
       (shapeTruthy d.shape || d.filt.isSome) = true →
       L.dictParamsCall dictid nm (.dtype (.handleR tid)) al (fuel + 1) =
         (.error .typeError, L)) :=
  ⟨dictParams_fixed_ok, dictParams_fixed_neg, dictParams_dtype_only_int,
   dictParams_compound_raises, dictParams_nonint_prim_raises,
   dictParams_shaped_typedef_raises⟩

/-- C8 counterexample: the integer literal -5 does not create a fixed
parameter but raises ValueError, and the unprefixed float primitive name
f8 raises AttributeError (the missing `Layout.add_prim`), not the claimed
type-mismatch error. -/
theorem C8_param_datatype_check_counterexample :
    Layout.dictParamsCall L0 0 "n" (.intVal (-5)) none 9 =
      (.error .valueError, L0) ∧
    (Layout.dictParamsCall L0 0 "nm" (.dtype (.nameR "f8")) none 9).1 =
      .error .attributeError := by
  exact ⟨by rfl, by rfl⟩

/-- Witness for C8 amended on the fixture LC8: literal 5 creates the fixed
parameter with id 6 (the arena length), the float primitive |f2 (number 8),
the compound at 3 and the shaped typedef at 4 each raise TypeError. -/
theorem C8_param_datatype_check_amended_witness :
    (LC8.dictParamsCall 0 "n" (.intVal 5) none 9).1 = .ok 6 ∧
    LC8.dictParamsCall 0 "q" (.dtype (.handleR (-(8 : Int)))) none 9 =
      (.error .typeError, LC8) ∧
    LC8.dictParamsCall 0 "c" (.dtype (.handleR 3)) none 8 =
      (.error .typeError, LC8) ∧
    LC8.dictParamsCall 0 "s" (.dtype (.handleR 4)) none 8 =
      (.error .typeError, LC8) := by
  refine ⟨?_, ?_, ?_, ?_⟩
  · have h := C8_param_datatype_check_amended.1 LC8 0 "n" 5 none 9
      { parent := none, name := none, items := [], params := none,
        types := none } (by rfl) (by norm_num)
    rw [h]
    rfl
  · exact C8_param_datatype_check_amended.2.2.2.2.1 LC8 0 "q" 8 none 9
      { parent := none, name := none, items := [], params := none,
        types := none } (by rfl) (by norm_num) (by norm_num) (by decide)
  · exact C8_param_datatype_check_amended.2.2.2.1 LC8 0 "c" 3
      { parent := 0, name := some "C", members := .compound [("a", 2)],
        size := some 4, align := 4 } [("a", 2)] none 7
      { parent := none, name := none, items := [], params := none,
        types := none } (by rfl) (by norm_num) (by rfl) (by rfl)
  · exact C8_param_datatype_check_amended.2.2.2.2.2 LC8 0 "s" 4
      { parent := 0, name := some "S", members := .anon 5, size := some 12,
        align := 4 } 5
      { parent := 4, name := none, typeid := some (-12), shape := some [3],
        align := 0, filt := none } none 7
      { parent := none, name := none, items := [], params := none,
        types := none } (by rfl) (by norm_num) (by rfl) (by rfl) (by rfl)
      (by rfl)

end Dudley
